import Mathlib

/-!
Shallow embedding of the OSPay payment service (Go) for checking its
natural-language specification.  The definitions below are translated from
the repository sources: `pkg/api/events.go`, `pkg/api/refunds.go`,
`pkg/api/merchants.go`, `pkg/blockchain/bsc.go`, the order/ledger handlers,
and the SQLite schema in the db package.  Database state is modelled as
lists of rows; each HTTP handler or background job becomes a pure function
from state (plus its request and oracles for time and the chain RPC) to a
response and a new state.  Amounts are decimal strings at the storage
boundary, exactly as in the schema, and are parsed to `Int` where the Go
code parses them with `big.Int.SetString` or scans them into `int64`.
-/

namespace OSPay

/-- A row of the `orders` table (schema in the db package). -/
structure Order where
  id : String
  merchantId : String
  amountMinor : String
  asset : String
  chain : String
  status : String
  depositAddress : String
  orderIdempotencyKey : Option String
  refundIdempotencyKey : Option String
  txHash : Option String
  paidAt : Option String
  createdAt : String
deriving DecidableEq, Repr

/-- A row of the `merchants` table. -/
structure Merchant where
  id : String
  name : String
  apiKey : String
  walletAddress : String
deriving DecidableEq, Repr

/-- A row of the `ledger_entries` table. -/
structure LedgerEntry where
  id : String
  orderId : String
  merchantId : String
  asset : String
  amountMinor : String
  bucket : String
  direction : String
  eventType : String
  txHash : Option String
  createdAt : String
deriving DecidableEq, Repr

/-- The relational store shared by the order and ledger operations. -/
structure DB where
  orders : List Order
  merchants : List Merchant
  ledger : List LedgerEntry
deriving DecidableEq, Repr

/-- `SELECT ... FROM orders WHERE id = ?`. -/
def findOrder (db : DB) (id : String) : Option Order :=
  db.orders.find? (fun o => o.id = id)

/-- `SELECT ... FROM merchants WHERE id = ?`. -/
def findMerchant (db : DB) (id : String) : Option Merchant :=
  db.merchants.find? (fun m => m.id = id)

/-- Value of a decimal digit character. -/
def digitVal (c : Char) : Nat := c.toNat - 48

/-- Go `strings.ToLower`, on the character sequence. -/
def strToLower (s : String) : String := String.mk (s.data.map Char.toLower)

/-- Go `strings.ToUpper`, on the character sequence. -/
def strToUpper (s : String) : String := String.mk (s.data.map Char.toUpper)

/-- A nonempty all-digit character sequence. -/
def isDigits (cs : List Char) : Bool :=
  !cs.isEmpty && cs.all (fun c => '0' ≤ c && c ≤ '9')

/-- Base-10 value of a digit sequence. -/
def digitsVal (cs : List Char) : Nat :=
  cs.foldl (fun a c => a * 10 + digitVal c) 0

/-- Parse a nonempty digit sequence as a natural number. -/
def parseNatChars (cs : List Char) : Option Nat :=
  if isDigits cs then some (digitsVal cs) else none

/-- Parse a nonempty digit string as a natural number (base 10). -/
def parseDecNat (s : String) : Option Nat := parseNatChars s.toList

/-- `big.Int.SetString(s, 10)`: an optional sign followed by digits. -/
def parseDecInt (s : String) : Option Int :=
  match s.toList with
  | '-' :: rest => (parseNatChars rest).map (fun n => -(n : Int))
  | '+' :: rest => (parseNatChars rest).map (fun n => (n : Int))
  | cs => (parseNatChars cs).map (fun n => (n : Int))

/-- The signed range of a Go `int64`: -2^63 to 2^63 - 1. -/
def inInt64Range (z : Int) : Prop :=
  -9223372036854775808 ≤ z ∧ z ≤ 9223372036854775807

instance (z : Int) : Decidable (inInt64Range z) := by
  unfold inInt64Range; infer_instance

/-- Scanning a stored TEXT amount into a Go `int64` variable
(`strconv.ParseInt` semantics: sign plus digits, range checked). -/
def scanInt64 (s : String) : Option Int :=
  match parseDecInt s with
  | some v => if inInt64Range v then some v else none
  | none => none

/-- `isValidAmountString` from the order handlers: nonempty, not "0",
digits only. -/
def isValidAmountString (s : String) : Bool :=
  if s = "" || s = "0" then false
  else s.toList.all (fun c => '0' ≤ c && c ≤ '9')

/-! ## Sweepers (`StartSettlementScheduler`, `StartOrderTimeoutScheduler`) -/

/-- Lexicographic character-list comparison, as SQLite compares TEXT
values byte by byte (RFC3339 timestamps order correctly this way). -/
def charListLe : List Char → List Char → Bool
  | [], _ => true
  | _ :: _, [] => false
  | a :: as, b :: bs =>
    if a.toNat < b.toNat then true
    else if b.toNat < a.toNat then false
    else charListLe as bs

/-- TEXT `<=` on two stored strings. -/
def strLe (a b : String) : Bool := charListLe a.data b.data

/-- `paid_at <= cutoff` in SQL: NULL compares to nothing. -/
def paidAtLe (o : Order) (cutoff : String) : Bool :=
  match o.paidAt with
  | some p => strLe p cutoff
  | none => false

/-- The settlement sweep's SELECT:
`SELECT id FROM orders WHERE status='PAID' AND paid_at <= ?`. -/
def settlementSelect (db : DB) (cutoff : String) : List String :=
  (db.orders.filter (fun o => o.status = "PAID" && paidAtLe o cutoff)).map
    (fun o => o.id)

/-- The settlement sweep's per-id update:
`UPDATE orders SET status='SETTLED' WHERE id=?` — the WHERE clause names
only the id, with no condition on the current status. -/
def settleUpdateRow (targetId : String) (o : Order) : Order :=
  if o.id = targetId then { o with status := "SETTLED" } else o

/-- The timeout sweep's SELECT:
`SELECT id FROM orders WHERE status='PENDING' AND created_at <= ?`. -/
def timeoutSelect (db : DB) (cutoff : String) : List String :=
  (db.orders.filter (fun o => o.status = "PENDING" && strLe o.createdAt cutoff)).map
    (fun o => o.id)

/-- The timeout sweep's per-id update:
`UPDATE orders SET status='FAILED' WHERE id=? AND status='PENDING'`. -/
def markFailedRow (targetId : String) (o : Order) : Order :=
  if o.id = targetId ∧ o.status = "PENDING" then { o with status := "FAILED" }
  else o

/-- One settlement sweep iteration, with the per-id updates applied to a
possibly different database state than the one the ids were selected from
(the code runs the SELECT and the UPDATEs as separate statements outside
any transaction, so rows can change in between). -/
def settlementSweepFrom (selected : List String) (db : DB) : DB :=
  { db with
    orders := selected.foldl (fun os id => os.map (settleUpdateRow id)) db.orders }

/-! ## Chain verifier (`pkg/blockchain/bsc.go`) -/

/-- A receipt log, with the contract address and 32-byte topic words
already parsed to numbers and the data kept as its byte sequence. -/
structure EthLog where
  address : Nat
  topics : List Nat
  data : List Nat
deriving DecidableEq, Repr

/-- `BSC_USD_ADDRESS` parsed by `common.HexToAddress`. -/
def bscUsdAddr : Nat := 0x55d398326f99059fF775485246999027B3197955

/-- `crypto.Keccak256Hash([]byte("Transfer(address,address,uint256)"))`;
the well-known ERC-20 Transfer topic value. -/
def transferSigHash : Nat :=
  0xddf252ad1be2c89b69c2b068fc378daa952ba7f163c4a11628f55a4df523b3ef

/-- `common.HexToAddress(topic.Hex())` keeps the last 20 bytes of the
32-byte word. -/
def wordToAddr (w : Nat) : Nat := w % 2 ^ 160

/-- `new(big.Int).SetBytes(data)`: big-endian bytes to an unsigned value. -/
def bytesToNat (bs : List Nat) : Nat := bs.foldl (fun a b => a * 256 + b) 0

/-- The per-log test of `VerifyBSCUSDTransfer`: canonical contract address,
exactly three topics, Transfer signature first topic, `to` topic equal to
the destination, data word equal to the expected amount. -/
def logMatches (dest expected : Nat) (l : EthLog) : Bool :=
  l.address = bscUsdAddr ∧ l.topics.length = 3 ∧
    l.topics.getD 0 0 = transferSigHash ∧
    wordToAddr (l.topics.getD 2 0) = dest ∧
    bytesToNat l.data = expected

/-- `VerifyBSCUSDTransfer` on a fetched receipt: scan the logs, succeed on
the first full match, otherwise fail. -/
def VerifyBSCUSDTransfer (logs : List EthLog) (dest expected : Nat) : Bool :=
  logs.any (logMatches dest expected)

/-- The verification predicate in the words of the spec (P4 / section 4.C):
some log from the canonical contract whose first topic is the Transfer
hash, whose third topic equals the destination, and whose data word equals
the expected amount — with no condition on the total number of topics. -/
def specVerifyBSC (logs : List EthLog) (dest expected : Nat) : Bool :=
  logs.any (fun l =>
    (l.address == bscUsdAddr) &&
      (l.topics.head? == some transferSigHash) &&
      (match l.topics.get? 2 with
       | some w => wordToAddr w == dest
       | none => false) &&
      (bytesToNat l.data == expected))

/-! ## Payment detection (`pkg/api/events.go`) -/

/-- Decoded body of `POST /events/payment-detected`. -/
structure PdReq where
  orderId : String
  txHash : String
  amountMinor : Option String
deriving DecidableEq, Repr

/-- Handler outcome: a success body (code, order id, status, message) or an
error body (code, error tag). -/
inductive PdOut where
  | resp (code : Nat) (orderId status msg : String)
  | errResp (code : Nat) (tag : String)
deriving DecidableEq, Repr

/-- A queued verification job. -/
structure VerifyJob where
  orderId : String
  txHash : String
  merchantId : String
deriving DecidableEq, Repr

/-- Server state touched by payment detection: the database, the dedupe
cache (lowercased tx hash to last-seen time, in seconds) and the
verification queue. -/
structure SState where
  db : DB
  recentTx : List (String × Nat)
  queue : List VerifyJob
deriving DecidableEq, Repr

/-- The chain verifier as an oracle: tx hash, destination wallet, expected
amount; collapses the Go pair (ok, err) to success iff ok and no error. -/
abbrev Verifier := String → String → Int → Bool

/-- Read the dedupe cache. -/
def recentTxLookup (m : List (String × Nat)) (k : String) : Option Nat :=
  (m.find? (fun p => p.1 = k)).map (fun p => p.2)

/-- Write the dedupe cache. -/
def recentTxInsert (m : List (String × Nat)) (k : String) (t : Nat) :
    List (String × Nat) :=
  (k, t) :: m.filter (fun p => p.1 ≠ k)

/-- Substring containment, as Go `strings.Contains`. -/
def containsSubstr (s pat : String) : Bool := decide (pat.data <:+: s.data)

/-- The inline path's chain test
`strings.Contains(strings.ToLower(asset+"-bsc"), "bsc")`; lowering
distributes over the concatenation, giving `strToLower asset ++ "-bsc"`. -/
def inlineBscCheck (asset : String) : Bool :=
  containsSubstr (strToLower asset ++ "-bsc") "bsc"

/-- The guard of the PAID update:
`WHERE id=? AND (status='PENDING' OR status='CONFIRMING')`. -/
def paidGuard (id : String) (o : Order) : Bool :=
  o.id = id && (o.status = "PENDING" || o.status = "CONFIRMING")

/-- Rows changed by the guarded PAID update. -/
def paidRowsAffected (orders : List Order) (id : String) : Nat :=
  (orders.filter (paidGuard id)).length

/-- The guarded update `SET status='PAID', tx_hash=?, paid_at=?`. -/
def applyPaidUpdate (orders : List Order) (id txHash nowStr : String) :
    List Order :=
  orders.map (fun o =>
    if paidGuard id o then
      { o with status := "PAID", txHash := some txHash, paidAt := some nowStr }
    else o)

/-- The partial unique index `idx_orders_txhash_notnull` on
`orders(tx_hash)`: writing `txHash` onto row `id` conflicts when another
row already carries it. -/
def txHashConflict (orders : List Order) (id txHash : String) : Bool :=
  orders.any (fun o => o.id ≠ id && o.txHash == some txHash)

/-- Insert-time constraint check for `ledger_entries`: the TEXT PRIMARY KEY
on `id` and the unique index on `(order_id, event_type, bucket)`. -/
def ledgerConflict (ledger : List LedgerEntry) (e : LedgerEntry) : Bool :=
  ledger.any (fun x =>
    x.id = e.id ||
      (x.orderId = e.orderId && x.eventType = e.eventType && x.bucket = e.bucket))

/-- First PAYMENT_CONFIRMED posting: merchant bucket, credit. -/
def confirmEntryA (orderId merchantId asset amt txHash nowStr : String) :
    LedgerEntry :=
  { id := "led_" ++ nowStr ++ "_a", orderId := orderId, merchantId := merchantId,
    asset := asset, amountMinor := amt, bucket := "merchant",
    direction := "credit", eventType := "PAYMENT_CONFIRMED",
    txHash := some txHash, createdAt := nowStr }

/-- Second PAYMENT_CONFIRMED posting: clearing bucket, debit. -/
def confirmEntryB (orderId merchantId asset amt txHash nowStr : String) :
    LedgerEntry :=
  { id := "led_" ++ nowStr ++ "_b", orderId := orderId, merchantId := merchantId,
    asset := asset, amountMinor := amt, bucket := "clearing",
    direction := "debit", eventType := "PAYMENT_CONFIRMED",
    txHash := some txHash, createdAt := nowStr }

/-- Outcome of the confirmation transaction: committed with the new state,
committed with zero rows affected, or rolled back on a SQL error. -/
inductive TxnOut where
  | committed (db : DB)
  | noRows
  | sqlError
deriving DecidableEq, Repr

/-- The PAYMENT_CONFIRMED transaction shared by the inline and worker
paths: guarded PAID update, then the two ledger inserts, in the statement
order of the source; any constraint violation rolls the whole thing back. -/
def confirmTxn (db : DB) (orderId merchantId asset amt txHash nowStr : String) :
    TxnOut :=
  if paidRowsAffected db.orders orderId = 0 then TxnOut.noRows
  else if txHashConflict db.orders orderId txHash then TxnOut.sqlError
  else if ledgerConflict db.ledger
      (confirmEntryA orderId merchantId asset amt txHash nowStr) then
    TxnOut.sqlError
  else if ledgerConflict
      (db.ledger ++ [confirmEntryA orderId merchantId asset amt txHash nowStr])
      (confirmEntryB orderId merchantId asset amt txHash nowStr) then
    TxnOut.sqlError
  else
    TxnOut.committed
      { db with
        orders := applyPaidUpdate db.orders orderId txHash nowStr
        ledger := db.ledger ++
          [confirmEntryA orderId merchantId asset amt txHash nowStr,
            confirmEntryB orderId merchantId asset amt txHash nowStr] }

/-- The optional request override of the amount: a valid amount string in
the request replaces the order's stored amount, after verification. -/
def overrideAmt (req : PdReq) (o : Order) : String :=
  match req.amountMinor with
  | some a => if isValidAmountString a then a else o.amountMinor
  | none => o.amountMinor

/-- Inline path, after verification: the already-processed short circuit,
the optional request override of the amount, then the transaction. -/
def inlineAfterVerify (s : SState) (req : PdReq) (o : Order) (nowStr : String) :
    PdOut × SState :=
  if o.status = "PAID" || o.status = "SETTLED" || o.status = "REFUNDED" then
    (PdOut.resp 200 req.orderId o.status "no-op (already processed)", s)
  else
    match confirmTxn s.db req.orderId o.merchantId o.asset (overrideAmt req o)
        req.txHash nowStr with
    | TxnOut.noRows =>
      (PdOut.resp 200 req.orderId o.status "no-op (already processed)", s)
    | TxnOut.sqlError => (PdOut.errResp 500 "db_error", s)
    | TxnOut.committed db2 =>
      (PdOut.resp 200 req.orderId "PAID" "payment recorded; double-entry ledger written",
        { s with db := db2 })

/-- Inline transaction body: load the order and the merchant wallet, run
the throttled on-chain verification when the asset is USDT (recording the
tx hash in the dedupe cache on success, before the database commit), then
hand over to the post-verification steps. -/
def inlineTxn (s : SState) (req : PdReq) (verify : Verifier) (now : Nat)
    (nowStr : String) : PdOut × SState :=
  match findOrder s.db req.orderId with
  | none => (PdOut.errResp 404 "order_not_found", s)
  | some o =>
    match findMerchant s.db o.merchantId with
    | none => (PdOut.errResp 400 "missing_wallet_address", s)
    | some m =>
      if m.walletAddress = "" then (PdOut.errResp 400 "missing_wallet_address", s)
      else if strToUpper o.asset = "USDT" && inlineBscCheck o.asset then
        match parseDecInt o.amountMinor with
        | none => (PdOut.errResp 400 "invalid_amount", s)
        | some expected =>
          if verify req.txHash m.walletAddress expected then
            inlineAfterVerify
              { s with recentTx := recentTxInsert s.recentTx (strToLower req.txHash) now }
              req o nowStr
          else (PdOut.errResp 400 "onchain_verification_failed", s)
      else inlineAfterVerify s req o nowStr

/-- The inline fallback: dedupe short circuit, then the transaction. -/
def inlinePath (s : SState) (req : PdReq) (verify : Verifier) (now : Nat)
    (nowStr : String) : PdOut × SState :=
  match recentTxLookup s.recentTx (strToLower req.txHash) with
  | some t =>
    if now - t < 120 then
      (PdOut.resp 200 req.orderId "PAID" "recent duplicate tx hash", s)
    else inlineTxn s req verify now nowStr
  | none => inlineTxn s req verify now nowStr

/-- `PaymentDetectedHandler`: field validation; when workers are running,
a non-blocking enqueue attempt (after resolving the merchant id) that
falls back to the inline path only when the queue is full. -/
def paymentDetectedHandler (s : SState) (queueCap : Nat) (workersOn : Bool)
    (req : PdReq) (verify : Verifier) (now : Nat) (nowStr : String) :
    PdOut × SState :=
  if req.orderId = "" || req.txHash = "" then
    (PdOut.errResp 400 "missing_fields", s)
  else if workersOn then
    match findOrder s.db req.orderId with
    | none => (PdOut.errResp 404 "order_not_found", s)
    | some o =>
      if s.queue.length < queueCap then
        (PdOut.resp 202 req.orderId "PENDING" "verification enqueued",
          { s with queue := s.queue ++
              [{ orderId := req.orderId, txHash := req.txHash,
                 merchantId := o.merchantId }] })
      else inlinePath s req verify now nowStr
  else inlinePath s req verify now nowStr

/-- Worker transaction wrapper: the dedupe cache and the counter are
touched only after a successful commit. -/
def workerTxn (db : DB) (recent : List (String × Nat)) (job : VerifyJob)
    (o : Order) (now : Nat) (nowStr : String) : DB × List (String × Nat) :=
  match confirmTxn db job.orderId o.merchantId o.asset o.amountMinor job.txHash nowStr with
  | TxnOut.committed db2 => (db2, recentTxInsert recent (strToLower job.txHash) now)
  | _ => (db, recent)

/-- `processVerificationJob`: reload the order, skip terminal states, load
the merchant wallet, verify on chain only for USDT on the BSC chain — any
other (asset, chain) pair skips verification and proceeds to the
transaction — then run the guarded transaction. -/
def processVerificationJob (db : DB) (recent : List (String × Nat))
    (job : VerifyJob) (verify : Verifier) (now : Nat) (nowStr : String) :
    DB × List (String × Nat) :=
  match findOrder db job.orderId with
  | none => (db, recent)
  | some o =>
    if o.status = "PAID" || o.status = "SETTLED" || o.status = "REFUNDED" then
      (db, recent)
    else
      match findMerchant db o.merchantId with
      | none => (db, recent)
      | some m =>
        if m.walletAddress = "" then (db, recent)
        else if strToUpper o.asset = "USDT" && strToUpper o.chain = "BSC" then
          match parseDecInt o.amountMinor with
          | none => (db, recent)
          | some expected =>
            if verify job.txHash m.walletAddress expected then
              workerTxn db recent job o now nowStr
            else (db, recent)
        else workerTxn db recent job o now nowStr

/-! ## Refunds (`pkg/api/refunds.go`) -/

/-- Decoded body of `POST /orders/refund?id=...`; the amount field is a
Go `*int64` in the source. -/
structure RefundReq where
  amountMinor : Option Int
  refundTxHash : String
  refundIdempotencyKey : String
deriving DecidableEq, Repr

/-- First REFUND posting: merchant bucket, debit. -/
def refundEntryA (orderId merchantId asset : String) (amt : Int)
    (refundTx nowStr : String) : LedgerEntry :=
  { id := "led_" ++ nowStr ++ "_refund_a_" ++ orderId, orderId := orderId,
    merchantId := merchantId, asset := asset, amountMinor := toString amt,
    bucket := "merchant", direction := "debit", eventType := "REFUND",
    txHash := some refundTx, createdAt := nowStr }

/-- Second REFUND posting: clearing bucket, credit. -/
def refundEntryB (orderId merchantId asset : String) (amt : Int)
    (refundTx nowStr : String) : LedgerEntry :=
  { id := "led_" ++ nowStr ++ "_refund_b_" ++ orderId, orderId := orderId,
    merchantId := merchantId, asset := asset, amountMinor := toString amt,
    bucket := "clearing", direction := "credit", eventType := "REFUND",
    txHash := some refundTx, createdAt := nowStr }

/-- The UNIQUE constraint on `orders.refund_idempotency_key`: setting the
key on this row conflicts when another row already carries it. -/
def refundKeyConflict (orders : List Order) (orderId key : String) : Bool :=
  orders.any (fun o => o.id ≠ orderId && o.refundIdempotencyKey == some key)

/-- `UPDATE orders SET status='REFUNDED', refund_idempotency_key=?
WHERE id=?`. -/
def applyRefundUpdate (orders : List Order) (orderId key : String) :
    List Order :=
  orders.map (fun o =>
    if o.id = orderId then
      { o with status := "REFUNDED", refundIdempotencyKey := some key }
    else o)

/-- `RefundHandler`: idempotency-key replay lookup, order load with the
amount scanned into an `int64`, the status switch, the effective amount
(a positive request override, else the order amount), the bound checks,
then the transactional ledger pair and status update. -/
def refundHandler (db : DB) (orderId : String) (req : RefundReq)
    (nowStr : String) : PdOut × DB :=
  if orderId = "" then (PdOut.errResp 400 "missing_query_param", db)
  else if req.refundIdempotencyKey = "" then
    (PdOut.errResp 400 "missing_idempotency_key", db)
  else
    match db.orders.find? (fun o =>
        o.refundIdempotencyKey == some req.refundIdempotencyKey && o.id = orderId) with
    | some o => (PdOut.resp 200 o.id o.status "no-op (already refunded)", db)
    | none =>
      match findOrder db orderId with
      | none => (PdOut.errResp 404 "order_not_found", db)
      | some o =>
        match scanInt64 o.amountMinor with
        | none => (PdOut.errResp 500 "db_error", db)
        | some orderAmt =>
          if o.status = "REFUNDED" then
            (PdOut.resp 200 orderId "REFUNDED" "no-op (already refunded)", db)
          else if o.status = "SETTLED" then
            (PdOut.errResp 409 "cannot_refund_settled", db)
          else if o.status = "PENDING" || o.status = "CONFIRMING" then
            (PdOut.errResp 409 "order_not_paid", db)
          else
            let amt :=
              match req.amountMinor with
              | some a => if a > 0 then a else orderAmt
              | none => orderAmt
            if amt ≤ 0 then (PdOut.errResp 400 "invalid_refund_amount", db)
            else if amt > orderAmt then
              (PdOut.errResp 400 "refund_exceeds_order", db)
            else
              let eA := refundEntryA orderId o.merchantId o.asset amt
                req.refundTxHash nowStr
              let eB := refundEntryB orderId o.merchantId o.asset amt
                req.refundTxHash nowStr
              if ledgerConflict db.ledger eA then (PdOut.errResp 500 "db_error", db)
              else if ledgerConflict (db.ledger ++ [eA]) eB then
                (PdOut.errResp 500 "db_error", db)
              else if refundKeyConflict db.orders orderId req.refundIdempotencyKey then
                (PdOut.errResp 500 "db_error", db)
              else
                (PdOut.resp 200 orderId "REFUNDED" "refund recorded with double-entry ledger",
                  { db with
                    orders := applyRefundUpdate db.orders orderId req.refundIdempotencyKey,
                    ledger := db.ledger ++ [eA, eB] })

/-! ## Order creation (order handlers file) -/

/-- Decoded body of `POST /orders`. -/
structure OrderCreateReq where
  merchantId : String
  amountMinor : String
  asset : String
  chain : String
  idempotencyKey : String
deriving DecidableEq, Repr

/-- Create-order handler outcome. -/
inductive COut where
  | ok (orderId depositAddress status : String)
  | err (code : Nat) (tag : String)
deriving DecidableEq, Repr

/-- `SELECT id, deposit_address, status FROM orders WHERE
order_idempotency_key = ? AND merchant_id = ?`. -/
def createSel (db : DB) (key mid : String) : Option Order :=
  db.orders.find? (fun o => o.orderIdempotencyKey == some key && o.merchantId = mid)

/-- Insert-time constraints on `orders`: the TEXT PRIMARY KEY on `id` and
the UNIQUE constraint on `order_idempotency_key` (NULL keys never
conflict). -/
def orderInsertConflict (orders : List Order) (newO : Order) : Bool :=
  orders.any (fun o => o.id = newO.id) ||
    (match newO.orderIdempotencyKey with
     | some k => orders.any (fun o => o.orderIdempotencyKey == some k)
     | none => false)

/-- `CreateOrderHandler`.  The prior lookup, the merchant fetch and the
insert are separate statements outside any transaction, so the lookup may
run against an earlier database state (`dbLookup`) than the insert
(`dbInsert`); sequentially the two coincide.  A unique-constraint
violation on insert re-runs the lookup and returns the existing row. -/
def createOrderHandler (dbLookup dbInsert : DB) (req : OrderCreateReq)
    (freshId nowStr : String) : COut × DB :=
  if req.merchantId = "" || !isValidAmountString req.amountMinor ||
      req.asset = "" || req.chain = "" then
    (COut.err 400 "missing_fields", dbInsert)
  else if req.idempotencyKey = "" then
    (COut.err 400 "missing_idempotency_key", dbInsert)
  else
    match createSel dbLookup req.idempotencyKey req.merchantId with
    | some o => (COut.ok o.id o.depositAddress o.status, dbInsert)
    | none =>
      match findMerchant dbInsert req.merchantId with
      | none => (COut.err 400 "merchant_not_found", dbInsert)
      | some m =>
        let newO : Order :=
          { id := freshId, merchantId := req.merchantId,
            amountMinor := req.amountMinor, asset := req.asset,
            chain := req.chain, status := "PENDING",
            depositAddress := m.walletAddress,
            orderIdempotencyKey := some req.idempotencyKey,
            refundIdempotencyKey := none, txHash := none, paidAt := none,
            createdAt := nowStr }
        if orderInsertConflict dbInsert.orders newO then
          match createSel dbInsert req.idempotencyKey req.merchantId with
          | some o2 => (COut.ok o2.id o2.depositAddress o2.status, dbInsert)
          | none => (COut.err 500 "db_error", dbInsert)
        else
          (COut.ok freshId m.walletAddress "PENDING",
            { dbInsert with orders := dbInsert.orders ++ [newO] })

/-! ## Reconciliation (`ReconciliationHandler`) -/

/-- Signed value of one ledger entry, as in the SQL
`CASE WHEN direction='credit' THEN amount_minor ELSE -amount_minor END`,
in exact integer arithmetic. -/
def ledgerTermValue (e : LedgerEntry) : Int :=
  if e.direction = "credit" then (parseDecInt e.amountMinor).getD 0
  else -((parseDecInt e.amountMinor).getD 0)

/-- The exact signed sum `COALESCE(SUM(...), 0)` over the entries matching
`merchant_id = ? AND asset = ? AND bucket = ?`. -/
def balanceExact (ledger : List LedgerEntry) (merchantId asset bucket : String) :
    Int :=
  ((ledger.filter (fun e =>
      e.merchantId = merchantId && e.asset = asset && e.bucket = bucket)).map
    ledgerTermValue).foldl (fun a b => a + b) 0

/-- The balance as the handler can observe it: the query result is scanned
into a Go `int64` variable, so a sum outside the signed 64-bit range has
no faithful representation and the scan fails. -/
def reconBalanceScan (db : DB) (merchantId asset bucket : String) : Option Int :=
  let z := balanceExact db.ledger merchantId asset bucket
  if inInt64Range z then some z else none

/-! ## Concrete fixtures used by the theorems -/

/-- A merchant with a wallet address set. -/
def mAcme : Merchant :=
  { id := "m1", name := "Acme", apiKey := "key1", walletAddress := "0xWALLET" }

/-- A freshly created PENDING order for 100 minor units of USDT on BSC. -/
def oPending : Order :=
  { id := "o1", merchantId := "m1", amountMinor := "100", asset := "USDT",
    chain := "BSC", status := "PENDING", depositAddress := "0xWALLET",
    orderIdempotencyKey := some "k1", refundIdempotencyKey := none,
    txHash := none, paidAt := none, createdAt := "2026-01-01T00:00:00Z" }

/-- An order that reached PAID and was then refunded. -/
def oRefunded : Order :=
  { oPending with
    status := "REFUNDED"
    refundIdempotencyKey := some "r1"
    txHash := some "0xT1"
    paidAt := some "2026-01-01T00:10:00Z" }

/-- The same order while PAID. -/
def oPaid : Order :=
  { oPending with
    status := "PAID"
    txHash := some "0xT1"
    paidAt := some "2026-01-01T00:10:00Z" }

/-- A PENDING order in a non-USDT asset (no verifier exists for it). -/
def oEth : Order :=
  { oPending with
    id := "o4"
    asset := "ETH" }

/-- A receipt log from the canonical BSC-USD contract whose first topic is
the Transfer signature hash, whose third topic is the destination, and
whose data word is the expected amount — but with four topics. -/
def logFourTopics : EthLog :=
  { address := bscUsdAddr, topics := [transferSigHash, 0, 7, 0], data := [5] }

/-- A single PAYMENT_CONFIRMED credit of 2^63 minor units (9.22 tokens of
an 18-decimal asset), as the events code writes it from the stored decimal
string. -/
def eHuge : LedgerEntry :=
  { id := "led_2026-01-01T00:00:00Z_a", orderId := "o9", merchantId := "m1",
    asset := "USDT", amountMinor := "9223372036854775808",
    bucket := "merchant", direction := "credit",
    eventType := "PAYMENT_CONFIRMED", txHash := some "0xT9",
    createdAt := "2026-01-01T00:00:00Z" }

/-- What a committed PAYMENT_CONFIRMED transaction changes, and nothing
else: the guarded PAID update on the one order and the balanced ledger
pair appended; merchants untouched. -/
def confirmCommitShape (db db2 : DB)
    (orderId merchantId asset amt txHash nowStr : String) : Prop :=
  db2.orders = applyPaidUpdate db.orders orderId txHash nowStr ∧
    db2.merchants = db.merchants ∧
    db2.ledger = db.ledger ++
      [confirmEntryA orderId merchantId asset amt txHash nowStr,
        confirmEntryB orderId merchantId asset amt txHash nowStr]

/-! ## Helper lemmas -/

/-- The inline chain test is vacuous: `asset + "-bsc"` always contains
"bsc", whatever the asset. -/
theorem inlineBscCheck_true (asset : String) : inlineBscCheck asset = true := by
  unfold inlineBscCheck containsSubstr
  rw [decide_eq_true_eq, String.data_append]
  refine List.IsSuffix.isInfix ⟨(strToLower asset).data ++ ['-'], ?_⟩
  simp [String.data]

/-- A found order carries the looked-up id. -/
theorem findOrder_id {db : DB} {i : String} {o : Order}
    (h : findOrder db i = some o) : o.id = i := by
  have := List.find?_some h
  exact of_decide_eq_true this

/-- A found order is a row of the table. -/
theorem findOrder_mem {db : DB} {i : String} {o : Order}
    (h : findOrder db i = some o) : o ∈ db.orders :=
  List.mem_of_find?_eq_some h

/-- The guarded PAID update touches at least one row when a PENDING or
CONFIRMING order with the id is present. -/
theorem paidRowsAffected_pos {orders : List Order} {o : Order} {id : String}
    (ho : o ∈ orders) (hg : paidGuard id o = true) :
    ¬ paidRowsAffected orders id = 0 := by
  unfold paidRowsAffected
  intro h
  rw [List.length_eq_zero] at h
  have : o ∈ orders.filter (paidGuard id) := List.mem_filter.2 ⟨ho, hg⟩
  rw [h] at this
  cases this

/-- `find?` returns the unique matching element. -/
theorem find?_eq_some_unique {α : Type} {p : α → Bool} {l : List α} {x : α}
    (hx : x ∈ l) (hpx : p x = true) (h : ∀ y ∈ l, p y = true → y = x) :
    l.find? p = some x := by
  induction l with
  | nil => cases hx
  | cons a as ih =>
    by_cases hpa : p a = true
    · have hax : a = x := h a (List.mem_cons_self a as) hpa
      rw [List.find?_cons_of_pos _ hpa, hax]
    · have hpa2 : p a = false := by
        cases hv : p a
        · rfl
        · exact absurd hv hpa
      rw [List.find?_cons_of_neg _ (by rw [hpa2]; exact Bool.false_ne_true)]
      rcases List.mem_cons.1 hx with rfl | hx2
      · exact absurd hpx hpa
      · exact ih hx2 (fun y hy hpy => h y (List.mem_cons_of_mem _ hy) hpy)

/-- A dedupe-cache hit inside the 2-minute window short-circuits the
inline path. -/
theorem inlinePath_dedupe_hit {s : SState} {req : PdReq} {verify : Verifier}
    {now : Nat} {nowStr : String} {t : Nat}
    (hseen : recentTxLookup s.recentTx (strToLower req.txHash) = some t)
    (hfresh : now - t < 120) :
    inlinePath s req verify now nowStr =
      (PdOut.resp 200 req.orderId "PAID" "recent duplicate tx hash", s) := by
  unfold inlinePath
  rw [hseen]
  exact if_pos hfresh

/-! ## C1 -/

/-- C1: the claim states that the settlement sweeper marks an order
SETTLED only when its current status is PAID.  The sweep's SELECT does
filter on PAID, but the per-id UPDATE carries no status guard (unlike the
timeout sweeper's), so an order refunded between the SELECT and the UPDATE
is moved from the terminal state REFUNDED to SETTLED: selecting the order
while PAID and applying the update after it became REFUNDED yields
SETTLED. -/
theorem C1_sweep_settles_refunded_order :
    settlementSelect
        { orders := [{ oRefunded with status := "PAID" }], merchants := [mAcme],
          ledger := [] } "2026-02-01T00:00:00Z" = ["o1"] ∧
      oRefunded.status = "REFUNDED" ∧
      (settlementSweepFrom ["o1"]
          { orders := [oRefunded], merchants := [mAcme], ledger := [] }).orders.map
        Order.status = ["SETTLED"] ∧
      (settleUpdateRow "o1" oRefunded).status = "SETTLED" := by
  decide

/-! ## C5 -/

/-- C5 counterexample: the claim's condition list (canonical address,
Transfer first topic, destination third topic, exact data word) is
satisfied by a four-topic log, yet `VerifyBSCUSDTransfer` rejects it
because the code additionally requires exactly three topics. -/
theorem C5_counterexample :
    specVerifyBSC [logFourTopics] 7 5 = true ∧
      VerifyBSCUSDTransfer [logFourTopics] 7 5 = false := by
  decide

/-- C5 amended: verification succeeds iff some receipt log is emitted by
the canonical token contract, has exactly three topics, has the Transfer
signature hash as its first topic, has its third topic equal (as a parsed
address) to the destination, and has its data word exactly equal to the
expected amount; no tolerance and no summation. -/
theorem C5_verify_characterization (logs : List EthLog) (dest expected : Nat) :
    VerifyBSCUSDTransfer logs dest expected = true ↔
      ∃ l ∈ logs, l.address = bscUsdAddr ∧ l.topics.length = 3 ∧
        l.topics.getD 0 0 = transferSigHash ∧
        wordToAddr (l.topics.getD 2 0) = dest ∧ bytesToNat l.data = expected := by
  unfold VerifyBSCUSDTransfer
  rw [List.any_eq_true]
  simp only [logMatches, decide_eq_true_eq]

/-! ## C9 -/

/-- C9: the exact signed sum over this ledger is 2^63, which lies outside
the signed 64-bit range, so the handler — which scans the SUM into a Go
`int64` variable — cannot report the exact arbitrary-precision balance. -/
theorem C9_balance_exceeds_int64 :
    balanceExact [eHuge] "m1" "USDT" "merchant" = 9223372036854775808 ∧
      ¬ inInt64Range (balanceExact [eHuge] "m1" "USDT" "merchant") ∧
      reconBalanceScan { orders := [], merchants := [], ledger := [eHuge] }
        "m1" "USDT" "merchant" = none := by
  decide

/-! ## C3 -/

/-- C3 counterexample: the tx hash `0xT1` (lowercased `0xt1`) was recorded
in the dedupe cache 10 seconds ago, well within the 2-minute window, and
the queue has capacity — yet the handler enqueues a verification job and
answers 202 PENDING, because the dedupe check sits on the inline fallback
path only, after the enqueue attempt. -/
theorem C3_counterexample :
    paymentDetectedHandler
        { db := { orders := [oPending], merchants := [mAcme], ledger := [] },
          recentTx := [("0xt1", 100)], queue := [] }
        1000 true { orderId := "o1", txHash := "0xT1", amountMinor := none }
        (fun _ _ _ => false) 110 "2026-01-01T00:05:00Z" =
      (PdOut.resp 202 "o1" "PENDING" "verification enqueued",
        { db := { orders := [oPending], merchants := [mAcme], ledger := [] },
          recentTx := [("0xt1", 100)],
          queue := [{ orderId := "o1", txHash := "0xT1", merchantId := "m1" }] }) ∧
      110 - 100 < 120 := by
  decide

/-! ## C2 -/

/-- C2 counterexample: the order is for 100 minor units, the request
carries the valid override "50".  A verifier that accepts only the
expected amount 100 lets the confirmation commit — so the chain check ran
against 100 — yet both committed ledger entries record 50; a verifier
accepting only 50 makes the same request fail verification.  The recorded
amount therefore differs from the amount the verifier checked. -/
theorem C2_counterexample :
    oPending.amountMinor = "100" ∧
      (paymentDetectedHandler
            { db := { orders := [oPending], merchants := [mAcme], ledger := [] },
              recentTx := [], queue := [] }
            1000 false { orderId := "o1", txHash := "0xT2", amountMinor := some "50" }
            (fun _ _ e => e == 100) 1000 "2026-01-01T00:20:00Z").2.db.ledger.map
          LedgerEntry.amountMinor = ["50", "50"] ∧
      (paymentDetectedHandler
            { db := { orders := [oPending], merchants := [mAcme], ledger := [] },
              recentTx := [], queue := [] }
            1000 false { orderId := "o1", txHash := "0xT2", amountMinor := some "50" }
            (fun _ _ e => e == 100) 1000 "2026-01-01T00:20:00Z").1 =
        PdOut.resp 200 "o1" "PAID" "payment recorded; double-entry ledger written" ∧
      (paymentDetectedHandler
            { db := { orders := [oPending], merchants := [mAcme], ledger := [] },
              recentTx := [], queue := [] }
            1000 false { orderId := "o1", txHash := "0xT2", amountMinor := some "50" }
            (fun _ _ e => e == 50) 1000 "2026-01-01T00:20:00Z").1 =
        PdOut.errResp 400 "onchain_verification_failed" := by
  decide

/-! ## C4 -/

/-- C4 counterexample: a PENDING order in asset ETH (an unsupported
(asset, chain) pair) is processed by the verification worker with a chain
verifier that rejects everything; the worker still marks the order PAID
and writes both ledger entries — the auto-approve path is unconditional,
with no feature gate. -/
theorem C4_counterexample :
    (processVerificationJob { orders := [oEth], merchants := [mAcme], ledger := [] }
          [] { orderId := "o4", txHash := "0xT4", merchantId := "m1" }
          (fun _ _ _ => false) 0 "2026-01-01T00:30:00Z").1.orders.map Order.status =
        ["PAID"] ∧
      (processVerificationJob { orders := [oEth], merchants := [mAcme], ledger := [] }
            [] { orderId := "o4", txHash := "0xT4", merchantId := "m1" }
            (fun _ _ _ => false) 0 "2026-01-01T00:30:00Z").1.ledger.map
          LedgerEntry.eventType = ["PAYMENT_CONFIRMED", "PAYMENT_CONFIRMED"] := by
  decide

/-! ## C6 -/

/-- C6 counterexample: a refund request against a PAID order of 100 minor
units carrying the requested amount -5 (not greater than 0) is not refused
with invalid_refund_amount; the negative override is silently ignored and
the handler refunds the full order amount, writing both REFUND ledger
entries. -/
theorem C6_counterexample :
    (-5 : Int) ≤ 0 ∧
      (refundHandler { orders := [oPaid], merchants := [mAcme], ledger := [] }
            "o1" { amountMinor := some (-5), refundTxHash := "",
                   refundIdempotencyKey := "rX" } "2026-01-01T00:40:00Z").1 =
        PdOut.resp 200 "o1" "REFUNDED" "refund recorded with double-entry ledger" ∧
      (refundHandler { orders := [oPaid], merchants := [mAcme], ledger := [] }
            "o1" { amountMinor := some (-5), refundTxHash := "",
                   refundIdempotencyKey := "rX" } "2026-01-01T00:40:00Z").2.ledger.map
          LedgerEntry.amountMinor = ["100", "100"] := by
  decide

/-- C3 amended: the dedupe short circuit governs the inline path only.
For a request whose tx hash was recorded in the cache within the last 2
minutes, the handler answers 200 PAID (recent duplicate) without touching
any state exactly when the inline path is taken — workers not running, or
the queue full (with the order resolvable); when workers are running and
the queue has capacity, the request is enqueued regardless of the cache
(the counterexample). -/
theorem C3_dedupe_inline_only (s : SState) (cap : Nat) (workersOn : Bool)
    (req : PdReq) (verify : Verifier) (now : Nat) (nowStr : String) (t : Nat)
    (hid : req.orderId ≠ "") (htx : req.txHash ≠ "")
    (hseen : recentTxLookup s.recentTx (strToLower req.txHash) = some t)
    (hfresh : now - t < 120)
    (hinline : workersOn = false ∨
      (¬ s.queue.length < cap ∧ (findOrder s.db req.orderId).isSome)) :
    paymentDetectedHandler s cap workersOn req verify now nowStr =
      (PdOut.resp 200 req.orderId "PAID" "recent duplicate tx hash", s) := by
  unfold paymentDetectedHandler
  have hcond : ¬ ((req.orderId = "" || req.txHash = "") = true) := by
    simp [hid, htx]
  rw [if_neg hcond]
  cases workersOn with
  | false =>
    rw [if_neg (by simp)]
    exact inlinePath_dedupe_hit hseen hfresh
  | true =>
    rw [if_pos rfl]
    rcases hinline with h | ⟨hq, hsome⟩
    · cases h
    · obtain ⟨o, ho⟩ := Option.isSome_iff_exists.1 hsome
      rw [ho]
      simp only [if_neg hq]
      exact inlinePath_dedupe_hit hseen hfresh

/-- C3 amended, witnessed at a concrete input: workers off, hash seen 10
seconds ago. -/
theorem C3_dedupe_inline_only_witness :
    paymentDetectedHandler
        { db := { orders := [oPending], merchants := [mAcme], ledger := [] },
          recentTx := [("0xt1", 100)], queue := [] }
        1000 false { orderId := "o1", txHash := "0xT1", amountMinor := none }
        (fun _ _ _ => false) 110 "2026-01-01T00:05:00Z" =
      (PdOut.resp 200 "o1" "PAID" "recent duplicate tx hash",
        { db := { orders := [oPending], merchants := [mAcme], ledger := [] },
          recentTx := [("0xt1", 100)], queue := [] }) :=
  C3_dedupe_inline_only _ 1000 false _ _ 110 _ 100 (by decide) (by decide)
    (by decide) (by decide) (Or.inl rfl)

/-- C2 amended: for inline confirmations of a USDT order whose request
carries no amount_minor override, the verifier is consulted at exactly the
parse of the order's stored amount, and on success both committed ledger
entries record that same stored amount; on verifier failure nothing
changes.  (With a valid override the recorded amount is the override,
applied after verification — the counterexample.) -/
theorem C2_amount_fidelity_no_override (s : SState) (cap : Nat) (req : PdReq)
    (verify : Verifier) (now : Nat) (nowStr : String) (o : Order) (m : Merchant)
    (expected : Int)
    (hid : req.orderId ≠ "") (htx : req.txHash ≠ "")
    (hnoov : req.amountMinor = none)
    (hmiss : recentTxLookup s.recentTx (strToLower req.txHash) = none)
    (hord : findOrder s.db req.orderId = some o)
    (hmer : findMerchant s.db o.merchantId = some m)
    (hw : ¬ m.walletAddress = "")
    (husdt : strToUpper o.asset = "USDT")
    (hparse : parseDecInt o.amountMinor = some expected)
    (hst : o.status = "PENDING")
    (hnotx : txHashConflict s.db.orders req.orderId req.txHash = false)
    (hlc1 : ledgerConflict s.db.ledger
      (confirmEntryA req.orderId o.merchantId o.asset o.amountMinor req.txHash nowStr) = false)
    (hlc2 : ledgerConflict
      (s.db.ledger ++
        [confirmEntryA req.orderId o.merchantId o.asset o.amountMinor req.txHash nowStr])
      (confirmEntryB req.orderId o.merchantId o.asset o.amountMinor req.txHash nowStr) = false) :
    (verify req.txHash m.walletAddress expected = false →
      paymentDetectedHandler s cap false req verify now nowStr =
        (PdOut.errResp 400 "onchain_verification_failed", s)) ∧
    (verify req.txHash m.walletAddress expected = true →
      paymentDetectedHandler s cap false req verify now nowStr =
        (PdOut.resp 200 req.orderId "PAID" "payment recorded; double-entry ledger written",
          { s with
            db := { s.db with
                    orders := applyPaidUpdate s.db.orders req.orderId req.txHash nowStr
                    ledger := s.db.ledger ++
                      [confirmEntryA req.orderId o.merchantId o.asset o.amountMinor req.txHash nowStr,
                        confirmEntryB req.orderId o.merchantId o.asset o.amountMinor req.txHash nowStr] }
            recentTx := recentTxInsert s.recentTx (strToLower req.txHash) now })) := by
  have hrows : ¬ paidRowsAffected s.db.orders req.orderId = 0 :=
    paidRowsAffected_pos (findOrder_mem hord)
      (by simp [paidGuard, findOrder_id hord, hst])
  constructor
  · intro hv
    simp only [paymentDetectedHandler, inlinePath, inlineTxn, hmiss, hord, hmer,
      hid, htx, husdt, hv, hw, inlineBscCheck_true, hparse,
      Bool.false_eq_true, if_false, Bool.and_true, Bool.and_false,
      decide_True, decide_False, Bool.or_false, Bool.false_or, ite_false,
      ite_true, if_neg, if_pos]
  · intro hv
    simp only [paymentDetectedHandler, inlinePath, inlineTxn, inlineAfterVerify,
      overrideAmt, confirmTxn, hmiss, hord, hmer, hid, htx, husdt, hv, hnoov, hst, hrows,
      hnotx, hlc1, hlc2, inlineBscCheck_true, hparse,
      Bool.false_eq_true, if_false, Bool.and_true, Bool.and_false,
      decide_True, decide_False, Bool.or_false, Bool.false_or, ite_false,
      ite_true]
    simp [hw, hst, hrows, hnotx, hlc1, hlc2]

/-- C2 amended, witnessed: the 100-unit USDT order confirmed with no
override; the verifier accepts exactly 100 and both entries record
"100". -/
theorem C2_amount_fidelity_witness :
    paymentDetectedHandler
        { db := { orders := [oPending], merchants := [mAcme], ledger := [] },
          recentTx := [], queue := [] }
        1000 false { orderId := "o1", txHash := "0xT2", amountMinor := none }
        (fun _ _ e => e == 100) 1000 "2026-01-01T00:20:00Z" =
      (PdOut.resp 200 "o1" "PAID" "payment recorded; double-entry ledger written",
        { db :=
            { orders := applyPaidUpdate [oPending] "o1" "0xT2" "2026-01-01T00:20:00Z",
              merchants := [mAcme],
              ledger := [confirmEntryA "o1" "m1" "USDT" "100" "0xT2" "2026-01-01T00:20:00Z",
                confirmEntryB "o1" "m1" "USDT" "100" "0xT2" "2026-01-01T00:20:00Z"] },
          recentTx := [("0xt2", 1000)], queue := [] }) := by
  have h :=
    (C2_amount_fidelity_no_override
      { db := { orders := [oPending], merchants := [mAcme], ledger := [] },
        recentTx := [], queue := [] }
      1000 { orderId := "o1", txHash := "0xT2", amountMinor := none }
      (fun _ _ e => e == 100) 1000 "2026-01-01T00:20:00Z" oPending mAcme 100
      (by decide) (by decide) rfl (by decide) (by decide) (by decide)
      (by decide) (by decide) (by decide) (by decide) (by decide) (by decide)
      (by decide)).2 (by decide)
  exact h.trans (by decide)

/-- C4 amended: only the (USDT, BSC) pair is verified.  For a USDT-on-BSC
order the worker commits the PAID transition only with the verifier's
assent — a rejecting verifier leaves everything unchanged.  For every
other (asset, chain) pair the worker commits the PAID transition and the
ledger pair for any verifier whatsoever: the auto-approve path carries no
feature gate. -/
theorem C4_verified_gate_only_for_bsc_usdt :
    (∀ (db : DB) (recent : List (String × Nat)) (job : VerifyJob)
        (verify : Verifier) (now : Nat) (nowStr : String) (o : Order)
        (m : Merchant) (expected : Int),
      findOrder db job.orderId = some o →
      o.status = "PENDING" →
      findMerchant db o.merchantId = some m →
      ¬ m.walletAddress = "" →
      strToUpper o.asset = "USDT" →
      strToUpper o.chain = "BSC" →
      parseDecInt o.amountMinor = some expected →
      verify job.txHash m.walletAddress expected = false →
      processVerificationJob db recent job verify now nowStr = (db, recent)) ∧
    (∀ (db : DB) (recent : List (String × Nat)) (job : VerifyJob)
        (verify : Verifier) (now : Nat) (nowStr : String) (o : Order)
        (m : Merchant),
      findOrder db job.orderId = some o →
      o.status = "PENDING" →
      findMerchant db o.merchantId = some m →
      ¬ m.walletAddress = "" →
      ¬ (strToUpper o.asset = "USDT" ∧ strToUpper o.chain = "BSC") →
      txHashConflict db.orders job.orderId job.txHash = false →
      ledgerConflict db.ledger
        (confirmEntryA job.orderId o.merchantId o.asset o.amountMinor job.txHash nowStr) = false →
      ledgerConflict
        (db.ledger ++
          [confirmEntryA job.orderId o.merchantId o.asset o.amountMinor job.txHash nowStr])
        (confirmEntryB job.orderId o.merchantId o.asset o.amountMinor job.txHash nowStr) = false →
      processVerificationJob db recent job verify now nowStr =
        ({ db with
           orders := applyPaidUpdate db.orders job.orderId job.txHash nowStr
           ledger := db.ledger ++
             [confirmEntryA job.orderId o.merchantId o.asset o.amountMinor job.txHash nowStr,
               confirmEntryB job.orderId o.merchantId o.asset o.amountMinor job.txHash nowStr] },
          recentTxInsert recent (strToLower job.txHash) now)) := by
  constructor
  · intro db recent job verify now nowStr o m expected hord hst hmer hw husdt
      hbsc hparse hv
    simp only [processVerificationJob, hord, hst, hmer, husdt, hbsc, hparse, hv,
      Bool.and_self, decide_True, decide_False, Bool.and_true, Bool.and_false,
      Bool.or_false, Bool.false_or, ite_true, ite_false]
    simp [hw]
  · intro db recent job verify now nowStr o m hord hst hmer hw hpair hnotx
      hlc1 hlc2
    have hrows : ¬ paidRowsAffected db.orders job.orderId = 0 :=
      paidRowsAffected_pos (findOrder_mem hord)
        (by simp [paidGuard, findOrder_id hord, hst])
    have hpairb : (decide (strToUpper o.asset = "USDT") &&
        decide (strToUpper o.chain = "BSC")) = false := by
      rcases Decidable.em (strToUpper o.asset = "USDT") with ha | ha
      · rcases Decidable.em (strToUpper o.chain = "BSC") with hb | hb
        · exact absurd ⟨ha, hb⟩ hpair
        · simp [hb]
      · simp [ha]
    simp only [processVerificationJob, workerTxn, confirmTxn, hord, hst, hmer,
      hpairb, hrows, hnotx, hlc1, hlc2, Bool.false_eq_true, ite_false,
      ite_true]
    simp [hw, hst, hrows, hnotx, hlc1, hlc2]

/-- C4 amended, witnessed: (USDT, BSC) with a rejecting verifier stays
PENDING; the ETH order commits PAID with the same rejecting verifier. -/
theorem C4_verified_gate_witness :
    processVerificationJob { orders := [oPending], merchants := [mAcme], ledger := [] }
        [] { orderId := "o1", txHash := "0xT7", merchantId := "m1" }
        (fun _ _ _ => false) 0 "2026-01-01T00:30:00Z" =
      ({ orders := [oPending], merchants := [mAcme], ledger := [] }, []) ∧
    processVerificationJob { orders := [oEth], merchants := [mAcme], ledger := [] }
        [] { orderId := "o4", txHash := "0xT4", merchantId := "m1" }
        (fun _ _ _ => false) 0 "2026-01-01T00:30:00Z" =
      ({ orders := applyPaidUpdate [oEth] "o4" "0xT4" "2026-01-01T00:30:00Z",
         merchants := [mAcme],
         ledger := [confirmEntryA "o4" "m1" "ETH" "100" "0xT4" "2026-01-01T00:30:00Z",
           confirmEntryB "o4" "m1" "ETH" "100" "0xT4" "2026-01-01T00:30:00Z"] },
        [("0xt4", 0)]) := by
  constructor
  · exact C4_verified_gate_only_for_bsc_usdt.1 _ _ _ _ 0 _ oPending mAcme 100
      (by decide) (by decide) (by decide) (by decide) (by decide) (by decide)
      (by decide) (by decide)
  · have h := C4_verified_gate_only_for_bsc_usdt.2
      { orders := [oEth], merchants := [mAcme], ledger := [] } []
      { orderId := "o4", txHash := "0xT4", merchantId := "m1" }
      (fun _ _ _ => false) 0 "2026-01-01T00:30:00Z" oEth mAcme
      (by decide) (by decide) (by decide) (by decide) (by decide) (by decide)
      (by decide) (by decide)
    exact h.trans (by decide)

/-- C6 amended: a requested refund amount of 0 or less is silently
ignored — the handler behaves exactly as if no amount had been requested,
refunding the full order amount — while a requested amount exceeding the
order amount is refused with refund_exceeds_order, with no ledger entry
written and the database (hence the PAID order) unchanged. -/
theorem C6_refund_amount_checks :
    (∀ (db : DB) (oid : String) (req : RefundReq) (a : Int) (nowStr : String),
      req.amountMinor = some a → a ≤ 0 →
      refundHandler db oid req nowStr =
        refundHandler db oid { req with amountMinor := none } nowStr) ∧
    (∀ (db : DB) (oid : String) (req : RefundReq) (a : Int) (nowStr : String)
        (o : Order) (orderAmt : Int),
      oid ≠ "" → req.refundIdempotencyKey ≠ "" →
      db.orders.find? (fun x =>
        x.refundIdempotencyKey == some req.refundIdempotencyKey && x.id = oid) = none →
      findOrder db oid = some o →
      scanInt64 o.amountMinor = some orderAmt →
      o.status = "PAID" →
      req.amountMinor = some a → 0 < a → orderAmt < a →
      refundHandler db oid req nowStr =
        (PdOut.errResp 400 "refund_exceeds_order", db)) := by
  constructor
  · intro db oid req a nowStr hreq ha
    have hng : ¬ a > 0 := by omega
    simp only [refundHandler, hreq, if_neg hng]
  · intro db oid req a nowStr o orderAmt hoid hkey hnoprior hord hscan hst
      hreq ha hgt
    have hpos : a > 0 := ha
    have hle : ¬ a ≤ 0 := by omega
    have hexc : a > orderAmt := hgt
    simp only [refundHandler, hoid, hkey, hnoprior, hord, hscan, hst, hreq,
      if_pos hpos, if_neg hle, if_pos hexc, ite_true, ite_false]
    simp [hoid, hkey, hst, hle, hexc]

/-- C6 amended, witnessed: against the PAID 100-unit order, requesting -5
equals requesting nothing, and requesting 200 is refused with
refund_exceeds_order leaving the database unchanged. -/
theorem C6_refund_amount_checks_witness :
    refundHandler { orders := [oPaid], merchants := [mAcme], ledger := [] } "o1"
        { amountMinor := some (-5), refundTxHash := "",
          refundIdempotencyKey := "rX" } "2026-01-01T00:40:00Z" =
      refundHandler { orders := [oPaid], merchants := [mAcme], ledger := [] } "o1"
        { amountMinor := none, refundTxHash := "",
          refundIdempotencyKey := "rX" } "2026-01-01T00:40:00Z" ∧
    refundHandler { orders := [oPaid], merchants := [mAcme], ledger := [] } "o1"
        { amountMinor := some 200, refundTxHash := "",
          refundIdempotencyKey := "rX" } "2026-01-01T00:40:00Z" =
      (PdOut.errResp 400 "refund_exceeds_order",
        { orders := [oPaid], merchants := [mAcme], ledger := [] }) := by
  constructor
  · exact (C6_refund_amount_checks.1 _ "o1" _ (-5) _ rfl (by decide)).trans
      (by decide)
  · exact C6_refund_amount_checks.2
      { orders := [oPaid], merchants := [mAcme], ledger := [] } "o1"
      { amountMinor := some 200, refundTxHash := "",
        refundIdempotencyKey := "rX" } 200 "2026-01-01T00:40:00Z" oPaid 100
      (by decide) (by decide) (by decide) (by decide) (by decide) (by decide)
      rfl (by decide) (by decide)

/-- C7: CreateOrder is idempotent per (merchant_id, idempotency_key).
When a row for the pair already exists at insert time, the handler
returns that row's order id and deposit address and leaves the store
unchanged — identically whether the prior lookup (run against the
possibly earlier state `dbLookup`) sees the row, or misses it and the
insert's unique-constraint violation triggers the recovery lookup. -/
theorem C7_create_idempotent (dbLookup dbInsert : DB) (req : OrderCreateReq)
    (freshId nowStr : String) (o : Order) (m : Merchant)
    (h1 : req.merchantId ≠ "")
    (h2 : isValidAmountString req.amountMinor = true)
    (h3 : req.asset ≠ "") (h4 : req.chain ≠ "") (h5 : req.idempotencyKey ≠ "")
    (ho : o ∈ dbInsert.orders) (hom : o.merchantId = req.merchantId)
    (hok : o.orderIdempotencyKey = some req.idempotencyKey)
    (huniq : ∀ y ∈ dbInsert.orders,
      y.orderIdempotencyKey = some req.idempotencyKey → y = o)
    (hlk : ∀ y, createSel dbLookup req.idempotencyKey req.merchantId = some y → y = o)
    (hm : findMerchant dbInsert req.merchantId = some m) :
    createOrderHandler dbLookup dbInsert req freshId nowStr =
      (COut.ok o.id o.depositAddress o.status, dbInsert) := by
  have hselI : createSel dbInsert req.idempotencyKey req.merchantId = some o := by
    unfold createSel
    refine find?_eq_some_unique ho (by simp [hok, hom]) ?_
    intro y hy hpy
    simp only [Bool.and_eq_true, beq_iff_eq, decide_eq_true_eq] at hpy
    exact huniq y hy hpy.1
  have hconf : orderInsertConflict dbInsert.orders
      { id := freshId, merchantId := req.merchantId,
        amountMinor := req.amountMinor, asset := req.asset, chain := req.chain,
        status := "PENDING", depositAddress := m.walletAddress,
        orderIdempotencyKey := some req.idempotencyKey,
        refundIdempotencyKey := none, txHash := none, paidAt := none,
        createdAt := nowStr } = true := by
    unfold orderInsertConflict
    dsimp only
    rw [Bool.or_eq_true]
    exact Or.inr (List.any_eq_true.2 ⟨o, ho, by simp [hok]⟩)
  unfold createOrderHandler
  rw [if_neg (by simp [h1, h2, h3, h4]), if_neg (by simp [h5])]
  cases hsel : createSel dbLookup req.idempotencyKey req.merchantId with
  | some y => rw [hlk y hsel]
  | none =>
    rw [hm]
    simp only [hconf, ite_true, hselI]

/-- C7 witnessed: the second create request for (m1, k1) — with a lookup
state that misses the row, forcing the unique-violation recovery path —
returns o1's id and deposit address and leaves the store unchanged. -/
theorem C7_create_idempotent_witness :
    createOrderHandler { orders := [], merchants := [mAcme], ledger := [] }
        { orders := [oPending], merchants := [mAcme], ledger := [] }
        { merchantId := "m1", amountMinor := "100", asset := "USDT",
          chain := "BSC", idempotencyKey := "k1" } "fresh-uuid" "2026-01-01T01:00:00Z" =
      (COut.ok "o1" "0xWALLET" "PENDING",
        { orders := [oPending], merchants := [mAcme], ledger := [] }) := by
  have h := C7_create_idempotent
    { orders := [], merchants := [mAcme], ledger := [] }
    { orders := [oPending], merchants := [mAcme], ledger := [] }
    { merchantId := "m1", amountMinor := "100", asset := "USDT",
      chain := "BSC", idempotencyKey := "k1" } "fresh-uuid" "2026-01-01T01:00:00Z"
    oPending mAcme (by decide) (by decide) (by decide) (by decide) (by decide)
    (by decide) rfl rfl
    (by intro y hy hk; exact List.mem_singleton.1 hy)
    (by intro y hk; simp [createSel] at hk)
    rfl
  exact h.trans (by decide)

/-- A committed confirmation transaction has exactly the commit shape. -/
theorem confirmTxn_committed_shape {db db2 : DB}
    {oid mid asset amt tx nowS : String}
    (h : confirmTxn db oid mid asset amt tx nowS = TxnOut.committed db2) :
    confirmCommitShape db db2 oid mid asset amt tx nowS := by
  unfold confirmTxn at h
  split at h
  · cases h
  · split at h
    · cases h
    · split at h
      · cases h
      · split at h
        · cases h
        · injection h with h2
          subst h2
          exact ⟨rfl, rfl, rfl⟩

/-- The post-verification inline steps leave the database unchanged or
commit the full confirmation shape. -/
theorem inlineAfterVerify_atomic (s : SState) (req : PdReq) (o : Order)
    (nowS : String) :
    (inlineAfterVerify s req o nowS).2.db = s.db ∨
      ∃ amt, confirmCommitShape s.db (inlineAfterVerify s req o nowS).2.db
        req.orderId o.merchantId o.asset amt req.txHash nowS := by
  unfold inlineAfterVerify
  split
  · left; rfl
  · cases hc : confirmTxn s.db req.orderId o.merchantId o.asset
        (overrideAmt req o) req.txHash nowS with
    | noRows => left; rfl
    | sqlError => left; rfl
    | committed db2 =>
      right
      exact ⟨overrideAmt req o, confirmTxn_committed_shape hc⟩

/-- The inline transaction body is atomic in the same sense. -/
theorem inlineTxn_atomic (s : SState) (req : PdReq) (verify : Verifier)
    (now : Nat) (nowS : String) :
    (inlineTxn s req verify now nowS).2.db = s.db ∨
      ∃ o amt, findOrder s.db req.orderId = some o ∧
        confirmCommitShape s.db (inlineTxn s req verify now nowS).2.db
          req.orderId o.merchantId o.asset amt req.txHash nowS := by
  unfold inlineTxn
  cases hord : findOrder s.db req.orderId with
  | none => left; rfl
  | some o =>
    dsimp only
    cases hmer : findMerchant s.db o.merchantId with
    | none => left; rfl
    | some m =>
      dsimp only
      split
      · left; rfl
      · split
        · cases hp : parseDecInt o.amountMinor with
          | none => left; rfl
          | some expected =>
            dsimp only
            split
            · rcases inlineAfterVerify_atomic
                { s with recentTx := recentTxInsert s.recentTx (strToLower req.txHash) now }
                req o nowS with h | ⟨amt, hsh⟩
              · left; exact h
              · right; exact ⟨o, amt, rfl, hsh⟩
            · left; rfl
        · rcases inlineAfterVerify_atomic s req o nowS with h | ⟨amt, hsh⟩
          · left; exact h
          · right; exact ⟨o, amt, rfl, hsh⟩

/-- The inline fallback (dedupe check included) is atomic. -/
theorem inlinePath_atomic (s : SState) (req : PdReq) (verify : Verifier)
    (now : Nat) (nowS : String) :
    (inlinePath s req verify now nowS).2.db = s.db ∨
      ∃ o amt, findOrder s.db req.orderId = some o ∧
        confirmCommitShape s.db (inlinePath s req verify now nowS).2.db
          req.orderId o.merchantId o.asset amt req.txHash nowS := by
  unfold inlinePath
  cases hseen : recentTxLookup s.recentTx (strToLower req.txHash) with
  | none => exact inlineTxn_atomic s req verify now nowS
  | some t =>
    dsimp only
    split
    · left; rfl
    · exact inlineTxn_atomic s req verify now nowS

/-- C8: the PAYMENT_CONFIRMED effect is atomic on both the inline and the
worker path.  Every execution either leaves the database exactly as it
was — all the error, no-op and rollback branches — or commits the whole
effect at once: the guarded PAID update on the order together with both
balanced ledger entries, and nothing else. -/
theorem C8_confirmation_atomic :
    (∀ (s : SState) (cap : Nat) (won : Bool) (req : PdReq) (verify : Verifier)
        (now : Nat) (nowS : String),
      (paymentDetectedHandler s cap won req verify now nowS).2.db = s.db ∨
        ∃ o amt, findOrder s.db req.orderId = some o ∧
          confirmCommitShape s.db
            (paymentDetectedHandler s cap won req verify now nowS).2.db
            req.orderId o.merchantId o.asset amt req.txHash nowS) ∧
    (∀ (db : DB) (recent : List (String × Nat)) (job : VerifyJob)
        (verify : Verifier) (now : Nat) (nowS : String),
      (processVerificationJob db recent job verify now nowS).1 = db ∨
        ∃ o, findOrder db job.orderId = some o ∧
          confirmCommitShape db (processVerificationJob db recent job verify now nowS).1
            job.orderId o.merchantId o.asset o.amountMinor job.txHash nowS) := by
  constructor
  · intro s cap won req verify now nowS
    unfold paymentDetectedHandler
    split
    · left; rfl
    · split
      · cases hord : findOrder s.db req.orderId with
        | none => left; rfl
        | some o =>
          dsimp only
          split
          · left; rfl
          · rcases inlinePath_atomic s req verify now nowS with h | ⟨o2, amt, ho2, hsh⟩
            · left; exact h
            · right
              refine ⟨o2, amt, ?_, hsh⟩
              rw [← hord]
              exact ho2
      · exact inlinePath_atomic s req verify now nowS
  · intro db recent job verify now nowS
    unfold processVerificationJob workerTxn
    cases hord : findOrder db job.orderId with
    | none => left; rfl
    | some o =>
      dsimp only
      split
      · left; rfl
      · cases hmer : findMerchant db o.merchantId with
        | none => left; rfl
        | some m =>
          dsimp only
          split
          · left; rfl
          · split
            · cases hp : parseDecInt o.amountMinor with
              | none => left; rfl
              | some expected =>
                dsimp only
                split
                · cases hc : confirmTxn db job.orderId o.merchantId o.asset
                      o.amountMinor job.txHash nowS with
                  | noRows => left; rfl
                  | sqlError => left; rfl
                  | committed db2 =>
                    right
                    exact ⟨o, rfl, confirmTxn_committed_shape hc⟩
                · left; rfl
            · cases hc : confirmTxn db job.orderId o.merchantId o.asset
                  o.amountMinor job.txHash nowS with
              | noRows => left; rfl
              | sqlError => left; rfl
              | committed db2 =>
                right
                exact ⟨o, rfl, confirmTxn_committed_shape hc⟩

/-- C10: the PAYMENT_CONFIRMED ledger-entry ids are a function of the
wall-clock timestamp alone — "led_" ++ timestamp ++ "_a"/"_b", identical
across any two orders, tx hashes, merchants and amounts confirmed in the
same second — and consequently a second confirmation in the same second
finds the primary key taken: its first ledger insert violates the TEXT
PRIMARY KEY and the transaction ends in a SQL error (rollback), never in
a commit. -/
theorem C10_ledger_ids_timestamp_only :
    (∀ (oid1 mid1 asset1 amt1 tx1 oid2 mid2 asset2 amt2 tx2 nowS : String),
      (confirmEntryA oid1 mid1 asset1 amt1 tx1 nowS).id =
          (confirmEntryA oid2 mid2 asset2 amt2 tx2 nowS).id ∧
        (confirmEntryB oid1 mid1 asset1 amt1 tx1 nowS).id =
          (confirmEntryB oid2 mid2 asset2 amt2 tx2 nowS).id ∧
        (confirmEntryA oid1 mid1 asset1 amt1 tx1 nowS).id =
          "led_" ++ nowS ++ "_a") ∧
    (∀ (db : DB) (oid mid asset amt tx nowS : String) (o : Order),
      o ∈ db.orders → o.id = oid →
      (o.status = "PENDING" ∨ o.status = "CONFIRMING") →
      (∃ e ∈ db.ledger, e.id = "led_" ++ nowS ++ "_a") →
      confirmTxn db oid mid asset amt tx nowS = TxnOut.sqlError) := by
  constructor
  · intro oid1 mid1 asset1 amt1 tx1 oid2 mid2 asset2 amt2 tx2 nowS
    exact ⟨rfl, rfl, rfl⟩
  · intro db oid mid asset amt tx nowS o ho hoid hst ⟨e, he, hid⟩
    have hrows : ¬ paidRowsAffected db.orders oid = 0 :=
      paidRowsAffected_pos ho (by
        rcases hst with h | h <;> simp [paidGuard, hoid, h])
    have hconf : ledgerConflict db.ledger
        (confirmEntryA oid mid asset amt tx nowS) = true := by
      unfold ledgerConflict
      refine List.any_eq_true.2 ⟨e, he, ?_⟩
      simp [confirmEntryA, hid]
    unfold confirmTxn
    rw [if_neg hrows]
    split
    · rfl
    · simp [hconf]

/-- C10 witnessed: after order o1's confirmation at second T committed
entries led_T_a/led_T_b, a second PENDING order o4 confirming at the same
second T maps to the same primary keys, and its transaction fails. -/
theorem C10_ledger_ids_witness :
    (confirmEntryA "o1" "m1" "USDT" "100" "0xT1" "T").id =
        (confirmEntryA "o4" "m9" "ETH" "7" "0xZZ" "T").id ∧
      confirmTxn
          { orders := [oEth],
            merchants := [mAcme],
            ledger := [confirmEntryA "o1" "m1" "USDT" "100" "0xT1" "T",
              confirmEntryB "o1" "m1" "USDT" "100" "0xT1" "T"] }
          "o4" "m1" "ETH" "100" "0xT4" "T" = TxnOut.sqlError := by
  constructor
  · exact (C10_ledger_ids_timestamp_only.1 "o1" "m1" "USDT" "100" "0xT1"
      "o4" "m9" "ETH" "7" "0xZZ" "T").1
  · exact C10_ledger_ids_timestamp_only.2
      { orders := [oEth],
        merchants := [mAcme],
        ledger := [confirmEntryA "o1" "m1" "USDT" "100" "0xT1" "T",
          confirmEntryB "o1" "m1" "USDT" "100" "0xT1" "T"] }
      "o4" "m1" "ETH" "100" "0xT4" "T" oEth (by decide) rfl (Or.inl rfl)
      ⟨confirmEntryA "o1" "m1" "USDT" "100" "0xT1" "T", by decide, rfl⟩

end OSPay
